import Mathlib

/-!
Verification of the tool-invocation contract of the ai-agents-for-beginners
example scripts.

The repository consists of three Python example scripts that register plain
functions as agent tools and extract display text from agent responses.  This
file gives a shallow embedding of the reproducible logic of those scripts:

  * the destination picker `get_random_destination`
    (01-intro-to-ai-agents and 03-agentic-design-patterns code samples);
  * the booking tools `booking_hotel` and `booking_flight`
    (04-tool-use code sample), with the HTTP layer modelled as an oracle
    from requests to responses and the issued requests returned as a trace;
  * the display-text extraction performed by each scripts `main`.

Machine-level effects (the network, the remote model) are modelled as
explicit inputs.  Parsed JSON bodies are modelled by the `Json` type; a
Python exception escaping a tool is modelled by `Except.error`.
-/

/-! ## Parsed JSON values and Python-level operations -/

/-- A parsed JSON value, as produced by `response.json()` in the source.
Object fields keep their order. -/
inductive Json where
  | null
  | bool (b : Bool)
  | num (n : Int)
  | str (s : String)
  | arr (elems : List Json)
  | obj (fields : List (String × Json))

/-- A Python exception escaping a tool boundary: `response["properties"]`
raises `KeyError` when the key is absent and `TypeError` when the subject is
not a dict. -/
inductive PyExc where
  | keyError (key : String)
  | typeError

/-- Python subscription `value[key]` on a parsed JSON value. -/
def Json.getItem : Json → String → Except PyExc Json
  | Json.obj fields, key =>
      match fields.lookup key with
      | some v => Except.ok v
      | none => Except.error (PyExc.keyError key)
  | _, _ => Except.error PyExc.typeError

/-- A single-quote character, used by the Python repr of strings. -/
def pyQuote : String := String.singleton (Char.ofNat 39)

/-- Python `repr` of a parsed JSON value (the element-level rendering used
by `str` on dicts and lists). -/
def pyRepr : Json → String
  | Json.null => "None"
  | Json.bool true => "True"
  | Json.bool false => "False"
  | Json.num n => toString n
  | Json.str s => pyQuote ++ s ++ pyQuote
  | Json.arr elems => "[" ++ String.intercalate ", " (elems.attach.map (fun e => pyRepr e.1)) ++ "]"
  | Json.obj fields =>
      "\x7b" ++ String.intercalate ", "
        (fields.attach.map (fun f => pyQuote ++ f.1.1 ++ pyQuote ++ ": " ++ pyRepr f.1.2)) ++ "\x7d"
decreasing_by
  · obtain ⟨x, hx⟩ := e
    have h := List.sizeOf_lt_of_mem hx
    simp only [Json.arr.sizeOf_spec]
    omega
  · obtain ⟨⟨k, v⟩, hf⟩ := f
    have h := List.sizeOf_lt_of_mem hf
    simp only [Json.obj.sizeOf_spec, Prod.mk.sizeOf_spec] at h ⊢
    omega

/-- Python `str` applied to a parsed JSON value, as in
`str(response)` at lines 201 and 227 of the 04-tool-use sample. -/
def pyStr : Json → String
  | Json.str s => s
  | j => pyRepr j

/-- Whether a tool result is a Python string value (as opposed to a raised
exception or a non-string JSON value). -/
def isStringResult : Except PyExc Json → Bool
  | Except.ok (Json.str _) => true
  | _ => false

/-! ## The HTTP layer -/

/-- An HTTP response as seen by the tools: the status code and the parsed
JSON body (`response.status_code` and `response.json()`). -/
structure HttpResponse where
  status_code : Nat
  json : Json

/-- A GET request issued through `requests.get(url, params=params)`.
A parameter value is `none` when the corresponding environment variable is
unset (Python `None`). -/
structure SerpRequest where
  url : String
  params : List (String × Option String)

/-- The environment variables read by the booking tools:
SERP_API_BASE_URL and SERP_API_KEY, each possibly unset. -/
structure SerpEnv where
  base_url : Option String
  api_key : Option String

/-- Python `x or default` on an optional string: the default is used when
the value is missing or empty (both are falsy in Python), as in
`os.environ.get("SERP_API_BASE_URL") or "https://serpapi.com/search"`. -/
def orDefault (x : Option String) (d : String) : String :=
  match x with
  | none => d
  | some s => if s = "" then d else s

/-! ## The booking tools (04-tool-use code sample) -/

/-- The query parameters built by `booking_hotel` (lines 127 to 137). -/
def hotel_params (query check_in_date check_out_date : String) (api_key : Option String) :
    List (String × Option String) :=
  [("engine", some "google_hotels"),
   ("q", some query),
   ("check_in_date", some check_in_date),
   ("check_out_date", some check_out_date),
   ("adults", some "1"),
   ("currency", some "USD"),
   ("gl", some "us"),
   ("hl", some "en"),
   ("api_key", api_key)]

/-- The hotel lookup tool (lines 110 to 151).  The HTTP layer is an oracle
`http`; the issued request is returned alongside the result.  On status 200
the source returns `response["properties"]` unchanged; otherwise the literal
string "request failed". -/
def booking_hotel (query check_in_date check_out_date : String)
    (env : SerpEnv) (http : SerpRequest → HttpResponse) :
    Except PyExc Json × SerpRequest :=
  let params := hotel_params query check_in_date check_out_date env.api_key
  let serp_base_url := orDefault env.base_url "https://serpapi.com/search"
  let request : SerpRequest := ⟨serp_base_url, params⟩
  let response := http request
  let result :=
    if response.status_code = 200 then response.json.getItem "properties"
    else Except.ok (Json.str "request failed")
  (result, request)

/-- The query parameters for the outbound flight leg (lines 175 to 184). -/
def go_params (origin destination outbound_date return_date : String) (api_key : Option String) :
    List (String × Option String) :=
  [("engine", some "google_flights"),
   ("departure_id", some origin),
   ("arrival_id", some destination),
   ("outbound_date", some outbound_date),
   ("return_date", some return_date),
   ("currency", some "USD"),
   ("hl", some "en"),
   ("api_key", api_key)]

/-- The query parameters for the return flight leg (lines 207 to 216):
departure and arrival are swapped, everything else is rebuilt identically. -/
def back_params (origin destination outbound_date return_date : String) (api_key : Option String) :
    List (String × Option String) :=
  [("engine", some "google_flights"),
   ("departure_id", some destination),
   ("arrival_id", some origin),
   ("outbound_date", some outbound_date),
   ("return_date", some return_date),
   ("currency", some "USD"),
   ("hl", some "en"),
   ("api_key", api_key)]

/-- The outbound-leg request of `booking_flight` (lines 188 to 191). -/
def booking_flight_go_request (origin destination outbound_date return_date : String)
    (env : SerpEnv) : SerpRequest :=
  ⟨orDefault env.base_url "https://serpapi.com/search",
   go_params origin destination outbound_date return_date env.api_key⟩

/-- The return-leg request of `booking_flight` (lines 218 to 220).  The
source recomputes the base url from the same environment before this
request; the value is identical. -/
def booking_flight_back_request (origin destination outbound_date return_date : String)
    (env : SerpEnv) : SerpRequest :=
  ⟨orDefault env.base_url "https://serpapi.com/search",
   back_params origin destination outbound_date return_date env.api_key⟩

/-- The flight lookup tool (lines 154 to 236).  Each leg appends its section
to the accumulated result only when its response has status 200; a failed
leg only logs to stdout (not modelled) and leaves the result unchanged.
The two issued requests are returned as a trace alongside the result. -/
def booking_flight (origin destination outbound_date return_date : String)
    (env : SerpEnv) (http : SerpRequest → HttpResponse) :
    String × List SerpRequest :=
  let go_request := booking_flight_go_request origin destination outbound_date return_date env
  let go_response := http go_request
  let result : String := ""
  let result :=
    if go_response.status_code = 200 then result ++ ("# outbound \n " ++ pyStr go_response.json)
    else result
  let back_request := booking_flight_back_request origin destination outbound_date return_date env
  let back_response := http back_request
  let result :=
    if back_response.status_code = 200 then result ++ ("\n # return \n" ++ pyStr back_response.json)
    else result
  (result, [go_request, back_request])

/-! ## The destination picker (01-intro and 03-design-patterns code samples) -/

/-- The fixed list of vacation destinations.  It appears verbatim in both
the 01-intro-to-ai-agents sample (lines 37 to 48) and the
03-agentic-design-patterns sample (lines 98 to 109). -/
def destinations : List String :=
  ["Barcelona, Spain",
   "Paris, France",
   "Berlin, Germany",
   "Tokyo, Japan",
   "Sydney, Australia",
   "New York, USA",
   "Cairo, Egypt",
   "Cape Town, South Africa",
   "Rio de Janeiro, Brazil",
   "Bali, Indonesia"]

/-- The destination picker: `destinations[randint(0, len(destinations) - 1)]`.
The randomness source is modelled as the index `r` drawn by `randint`,
which always satisfies the stated bound. -/
def get_random_destination (r : Nat) (h : r < destinations.length) : String :=
  destinations.get ⟨r, h⟩

/-! ## Conversation responses and display-text extraction -/

/-- A text content element of a chat message. -/
structure TextContent where
  text : String

/-- A chat message: an ordered list of content elements. -/
structure ChatMessage where
  contents : List TextContent

/-- An agent run response: an ordered sequence of messages. -/
structure AgentRunResponse where
  messages : List ChatMessage

/-- The extraction in the 01-intro sample (lines 127 to 129):
`response.messages[-1].contents[0].text`.  The result is `none` exactly when
the Python indexing would raise. -/
def extract_display_text_intro (response : AgentRunResponse) : Option String := do
  let last_message ← response.messages.getLast?
  let first_content ← last_message.contents.head?
  pure first_content.text

/-- The extraction in the 03-agentic-design-patterns sample (lines 182 to
184), identical in form to the 01-intro sample. -/
def extract_display_text_patterns (response : AgentRunResponse) : Option String := do
  let last_message ← response.messages.getLast?
  let first_content ← last_message.contents.head?
  pure first_content.text

/-- Modelled from the spec: the `text` property of the framework response
object used at line 316 of the 04-tool-use sample (`response1.text`) is
framework code absent from this repository.  The sample comments call it the
aggregate text reading that handles different content types; it is modelled
as the concatenation of the text of every content element of every message. -/
def response_text (response : AgentRunResponse) : String :=
  String.join (response.messages.map (fun m => String.join (m.contents.map TextContent.text)))

/-- The extraction in the 04-tool-use sample (line 316): the response-level
aggregate `text` property rather than indexing into the messages. -/
def extract_display_text_tooluse (response : AgentRunResponse) : String :=
  response_text response

/-! ## The invocation cap -/

/-- The cap declared on the booking tools by the decorator
`ai_function(max_invocations=3)` at lines 110 and 154. -/
def booking_hotel_max_invocations : Nat := 3

/-- Modelled from the spec: enforcement of the `max_invocations` cap lives
in the agent framework, which is not part of this repository; only the
declaration of the cap is.  Per the spec the declared cap bounds tool use
within one conversation: a requested call executes only while the number of
executions so far is below the cap.  Given the list of calls the model
requests in one conversation, this returns how many actually execute. -/
def cappedInvocationCount (cap : Nat) (requested_calls : List Unit) : Nat :=
  requested_calls.foldl (fun executed _ => if executed < cap then executed + 1 else executed) 0

/-! ## String-containment helpers -/

/-- Whether the character sequence `p` occurs contiguously inside `l`. -/
def containsSeq (p : List Char) : List Char → Bool
  | [] => p.isEmpty
  | a :: l => p.isPrefixOf (a :: l) || containsSeq p l

theorem data_append (s t : String) : (s ++ t).data = s.data ++ t.data := rfl

theorem str_empty_append (s : String) : "" ++ s = s := rfl

theorem outbound_marker_present (g : List Char) :
    containsSeq "# outbound".data ("# outbound \n ".data ++ g) = true := rfl

theorem return_marker_present (g : List Char) :
    containsSeq "# return".data ("\n # return \n".data ++ g) = true := rfl

theorem return_marker_skips_outbound_section (g : List Char) :
    containsSeq "# return".data ("# outbound \n ".data ++ g) = containsSeq "# return".data g :=
  rfl

/-! ## Claim C1 -/

/-- C1: the claim states that every registered tool function, on every
input, returns a value of string type and never raises past its boundary.
The code contradicts its own declared return type: on a 200 response
`booking_hotel` returns the parsed `properties` value unchanged (here a
JSON array, not a string), and it raises KeyError past its boundary when a
200 body lacks the `properties` key.  Only the non-200 branch yields a
string. -/
theorem booking_hotel_breaks_string_contract :
    isStringResult
      (booking_hotel "Paris" "2026-02-20" "2026-02-24" ⟨none, some "key"⟩
        (fun _ => ⟨200, Json.obj [("properties", Json.arr [])]⟩)).1 = false ∧
    (booking_hotel "Paris" "2026-02-20" "2026-02-24" ⟨none, some "key"⟩
        (fun _ => ⟨200, Json.obj []⟩)).1 = Except.error (PyExc.keyError "properties") ∧
    isStringResult
      (booking_hotel "Paris" "2026-02-20" "2026-02-24" ⟨none, some "key"⟩
        (fun _ => ⟨500, Json.null⟩)).1 = true :=
  ⟨rfl, rfl, rfl⟩

/-! ## Claim C2 -/

/-- C2: on a 200 response the code returns the parsed `properties` field
value itself, not that value serialized to text: at this input the returned
value is a JSON array and not any string value.  On a non-200 response the
code does return exactly the string "request failed". -/
theorem booking_hotel_returns_unserialized_properties :
    (booking_hotel "London" "2026-02-20" "2026-02-24" ⟨none, none⟩
        (fun _ => ⟨200, Json.obj [("properties", Json.arr [Json.num 42])]⟩)).1 =
      Except.ok (Json.arr [Json.num 42]) ∧
    isStringResult (Except.ok (Json.arr [Json.num 42])) = false ∧
    (booking_hotel "London" "2026-02-20" "2026-02-24" ⟨none, none⟩
        (fun _ => ⟨404, Json.null⟩)).1 = Except.ok (Json.str "request failed") :=
  ⟨rfl, rfl, rfl⟩

/-! ## Claim C5 -/

/-- C5: every value of the destination picker is a member of the fixed list
of 10 destinations; the list has exactly 10 entries and no duplicates (each
entry occurs exactly once), so a uniformly drawn index yields each
destination with probability exactly 1/10.  The picker takes no input other
than the randomness and is total. -/
theorem get_random_destination_uniform_member :
    (∀ (r : Nat) (h : r < destinations.length), get_random_destination r h ∈ destinations) ∧
    destinations.length = 10 ∧
    (∀ d ∈ destinations, destinations.count d = 1) :=
  ⟨fun r h => List.get_mem destinations r h, rfl, by decide⟩

/-- Witness: the picker evaluated at index 3 is a member of the list, and
one concrete destination occurs exactly once. -/
theorem get_random_destination_uniform_member_witness :
    get_random_destination 3 (by decide) ∈ destinations ∧
    destinations.count "Tokyo, Japan" = 1 :=
  ⟨get_random_destination_uniform_member.1 3 (by decide),
   get_random_destination_uniform_member.2.2 "Tokyo, Japan" (by decide)⟩

/-! ## Claim C6 -/

/-- C6: every call to booking_flight issues exactly two requests: the first
with departure set to the origin and arrival set to the destination, the
second with the two swapped, and both carrying currency USD and locale en. -/
theorem booking_flight_issues_two_requests
    (origin destination outbound_date return_date : String)
    (env : SerpEnv) (http : SerpRequest → HttpResponse) :
    (booking_flight origin destination outbound_date return_date env http).2.length = 2 ∧
    (booking_flight origin destination outbound_date return_date env http).2.map
        (fun r => r.params.lookup "departure_id") = [some (some origin), some (some destination)] ∧
    (booking_flight origin destination outbound_date return_date env http).2.map
        (fun r => r.params.lookup "arrival_id") = [some (some destination), some (some origin)] ∧
    (booking_flight origin destination outbound_date return_date env http).2.map
        (fun r => r.params.lookup "currency") = [some (some "USD"), some (some "USD")] ∧
    (booking_flight origin destination outbound_date return_date env http).2.map
        (fun r => r.params.lookup "hl") = [some (some "en"), some (some "en")] :=
  ⟨rfl, rfl, rfl, rfl, rfl⟩

/-! ## Claim C7 -/

theorem capped_fold_le (cap : Nat) (calls : List Unit) :
    ∀ start : Nat, start ≤ cap →
      calls.foldl (fun executed _ => if executed < cap then executed + 1 else executed) start
        ≤ cap := by
  induction calls with
  | nil => intro start h; simpa using h
  | cons c rest ih =>
      intro start h
      simp only [List.foldl]
      apply ih
      split <;> omega

/-- C7: under the declared cap of 3, no conversation executes the hotel
tool more than 3 times, however many calls the model requests. -/
theorem booking_hotel_invocations_bounded (requested_calls : List Unit) :
    cappedInvocationCount booking_hotel_max_invocations requested_calls ≤ 3 :=
  capped_fold_le booking_hotel_max_invocations requested_calls 0 (by omega)

/-! ## Claim C9 -/

/-- C9: when both legs of booking_flight fail (non-200 status on each), the
returned string is empty: no failure marker of any kind is produced. -/
theorem booking_flight_both_legs_fail_empty
    (origin destination outbound_date return_date : String)
    (env : SerpEnv) (http : SerpRequest → HttpResponse)
    (hgo : (http (booking_flight_go_request origin destination outbound_date return_date env)).status_code ≠ 200)
    (hback : (http (booking_flight_back_request origin destination outbound_date return_date env)).status_code ≠ 200) :
    (booking_flight origin destination outbound_date return_date env http).1 = "" := by
  simp [booking_flight, hgo, hback]

/-- Witness: with both responses at status 500 the result is empty. -/
theorem booking_flight_both_legs_fail_empty_witness :
    (booking_flight "London" "New York" "2025-02-17" "2025-02-23" ⟨none, none⟩
      (fun _ => ⟨500, Json.null⟩)).1 = "" :=
  booking_flight_both_legs_fail_empty "London" "New York" "2025-02-17" "2025-02-23"
    ⟨none, none⟩ (fun _ => ⟨500, Json.null⟩) (by decide) (by decide)

/-! ## Claim C10 -/

/-- C10: the return-leg request carries the same outbound_date and
return_date values as the outbound-leg request; departure_id and arrival_id
are exactly swapped; and every parameter other than those two is identical
between the two requests. -/
theorem booking_flight_return_leg_same_dates_swapped_ids
    (origin destination outbound_date return_date : String) (api_key : Option String) :
    (back_params origin destination outbound_date return_date api_key).lookup "outbound_date" =
      (go_params origin destination outbound_date return_date api_key).lookup "outbound_date" ∧
    (back_params origin destination outbound_date return_date api_key).lookup "return_date" =
      (go_params origin destination outbound_date return_date api_key).lookup "return_date" ∧
    (back_params origin destination outbound_date return_date api_key).lookup "departure_id" =
      (go_params origin destination outbound_date return_date api_key).lookup "arrival_id" ∧
    (back_params origin destination outbound_date return_date api_key).lookup "arrival_id" =
      (go_params origin destination outbound_date return_date api_key).lookup "departure_id" ∧
    (back_params origin destination outbound_date return_date api_key).filter
        (fun p => !(p.1 == "departure_id" || p.1 == "arrival_id")) =
      (go_params origin destination outbound_date return_date api_key).filter
        (fun p => !(p.1 == "departure_id" || p.1 == "arrival_id")) :=
  ⟨rfl, rfl, rfl, rfl, rfl⟩

/-! ## Claim C3 -/

/-- C3 counterexample: on a response with two messages, the 04-tool-use
extraction (the aggregate text property) yields the concatenation of both
messages, while reading the last message at content index zero yields only
the last message; the two extractions disagree, so not every caller in the
repository reads the last message at index zero. -/
theorem tooluse_extraction_differs_from_last_message_index_zero :
    extract_display_text_tooluse ⟨[⟨[⟨"A"⟩]⟩, ⟨[⟨"B"⟩]⟩]⟩ = "AB" ∧
    extract_display_text_intro ⟨[⟨[⟨"A"⟩]⟩, ⟨[⟨"B"⟩]⟩]⟩ = some "B" ∧
    decide (some (extract_display_text_tooluse ⟨[⟨[⟨"A"⟩]⟩, ⟨[⟨"B"⟩]⟩]⟩) =
      extract_display_text_intro ⟨[⟨[⟨"A"⟩]⟩, ⟨[⟨"B"⟩]⟩]⟩) = false :=
  ⟨by decide, by decide, by decide⟩

/-- C3 (amended): the callers in the 01-intro and 03-design-patterns
samples read the last message at content index zero; the 04-tool-use caller
instead reads the response-level aggregate text property, which agrees with
the last-message-index-zero reading whenever the response consists of a
single message holding a single content element. -/
theorem display_text_extraction_agreement (response : AgentRunResponse)
    (m : ChatMessage) (c : TextContent)
    (hm : response.messages = [m]) (hc : m.contents = [c]) :
    extract_display_text_intro response = some (extract_display_text_tooluse response) ∧
    extract_display_text_patterns response = some (extract_display_text_tooluse response) := by
  have hml : response.messages = [(⟨[c]⟩ : ChatMessage)] := by rw [hm, ← hc]
  simp [extract_display_text_intro, extract_display_text_patterns,
    extract_display_text_tooluse, response_text, hml, String.join, str_empty_append]

/-- Witness: on a one-message, one-content response the two extraction
styles agree. -/
theorem display_text_extraction_agreement_witness :
    extract_display_text_intro ⟨[⟨[⟨"Hello"⟩]⟩]⟩ =
      some (extract_display_text_tooluse ⟨[⟨[⟨"Hello"⟩]⟩]⟩) :=
  (display_text_extraction_agreement ⟨[⟨[⟨"Hello"⟩]⟩]⟩ ⟨[⟨"Hello"⟩]⟩ ⟨"Hello"⟩ rfl rfl).1

/-! ## Claim C4 -/

/-- C4 counterexample: with only the outbound leg at status 200 and an
outbound body whose rendered text contains the character sequence of the
return marker, the result contains "# return" even though the return leg
failed, so the claim as stated is false. -/
theorem flight_result_can_contain_return_marker_without_return_leg :
    ((fun r => if r.params.lookup "departure_id" = some (some "AAA")
        then (⟨200, Json.str "# return"⟩ : HttpResponse) else ⟨404, Json.null⟩)
      (booking_flight_go_request "AAA" "BBB" "2026-02-20" "2026-02-27"
        ⟨none, none⟩)).status_code = 200 ∧
    ((fun r => if r.params.lookup "departure_id" = some (some "AAA")
        then (⟨200, Json.str "# return"⟩ : HttpResponse) else ⟨404, Json.null⟩)
      (booking_flight_back_request "AAA" "BBB" "2026-02-20" "2026-02-27"
        ⟨none, none⟩)).status_code = 404 ∧
    containsSeq "# return".data
      (booking_flight "AAA" "BBB" "2026-02-20" "2026-02-27" ⟨none, none⟩
        (fun r => if r.params.lookup "departure_id" = some (some "AAA")
          then (⟨200, Json.str "# return"⟩ : HttpResponse) else ⟨404, Json.null⟩)).1.data
      = true :=
  ⟨by decide, by decide, by decide⟩

/-- C4 (amended): when both legs return status 200 the result contains the
marker "# outbound" followed, later in the string, by the marker
"# return"; when only the outbound leg returns 200 the result is exactly
the outbound section, so it contains "# outbound" and contains "# return"
only if the rendered outbound body itself contains that character sequence;
when only the return leg returns 200 the result is exactly the return
section.  A failed leg thus contributes nothing and does not abort the
other leg. -/
theorem booking_flight_marker_sections
    (origin destination outbound_date return_date : String)
    (env : SerpEnv) (http : SerpRequest → HttpResponse) :
    (((http (booking_flight_go_request origin destination outbound_date return_date env)).status_code = 200 →
      (((http (booking_flight_back_request origin destination outbound_date return_date env)).status_code = 200 →
        ∃ a b : List Char,
          (booking_flight origin destination outbound_date return_date env http).1.data = a ++ b ∧
          containsSeq "# outbound".data a = true ∧
          containsSeq "# return".data b = true) ∧
      ((http (booking_flight_back_request origin destination outbound_date return_date env)).status_code ≠ 200 →
        (booking_flight origin destination outbound_date return_date env http).1 =
          "# outbound \n " ++
            pyStr (http (booking_flight_go_request origin destination outbound_date return_date env)).json ∧
        containsSeq "# outbound".data
          (booking_flight origin destination outbound_date return_date env http).1.data = true ∧
        (containsSeq "# return".data
            (pyStr (http (booking_flight_go_request origin destination outbound_date return_date env)).json).data = false →
          containsSeq "# return".data
            (booking_flight origin destination outbound_date return_date env http).1.data = false)))) ∧
    ((http (booking_flight_go_request origin destination outbound_date return_date env)).status_code ≠ 200 →
      (http (booking_flight_back_request origin destination outbound_date return_date env)).status_code = 200 →
      (booking_flight origin destination outbound_date return_date env http).1 =
        "\n # return \n" ++
          pyStr (http (booking_flight_back_request origin destination outbound_date return_date env)).json)) := by
  constructor
  · intro hgo
    constructor
    · intro hback
      refine ⟨"# outbound \n ".data ++
          (pyStr (http (booking_flight_go_request origin destination outbound_date return_date env)).json).data,
        "\n # return \n".data ++
          (pyStr (http (booking_flight_back_request origin destination outbound_date return_date env)).json).data,
        ?_, ?_, ?_⟩
      · simp [booking_flight, hgo, hback, data_append, str_empty_append]
      · exact outbound_marker_present _
      · exact return_marker_present _
    · intro hback
      have hres : (booking_flight origin destination outbound_date return_date env http).1 =
          "# outbound \n " ++
            pyStr (http (booking_flight_go_request origin destination outbound_date return_date env)).json := by
        simp [booking_flight, hgo, hback, str_empty_append]
      refine ⟨hres, ?_, ?_⟩
      · rw [hres, data_append]
        exact outbound_marker_present _
      · intro hclean
        rw [hres, data_append, return_marker_skips_outbound_section]
        exact hclean
  · intro hgo hback
    simp [booking_flight, hgo, hback, str_empty_append]

/-- Witness: with the outbound leg at 200 (body rendered as a marker-free
string) and the return leg at 404, the result carries no return marker. -/
theorem booking_flight_marker_sections_witness :
    containsSeq "# return".data
      (booking_flight "JFK" "LHR" "2026-02-20" "2026-02-27" ⟨none, none⟩
        (fun r => if r.params.lookup "departure_id" = some (some "JFK")
          then (⟨200, Json.str "flight data"⟩ : HttpResponse) else ⟨404, Json.null⟩)).1.data
      = false :=
  (((booking_flight_marker_sections "JFK" "LHR" "2026-02-20" "2026-02-27" ⟨none, none⟩
      (fun r => if r.params.lookup "departure_id" = some (some "JFK")
        then (⟨200, Json.str "flight data"⟩ : HttpResponse) else ⟨404, Json.null⟩)).1
    (by decide)).2 (by decide)).2.2 (by decide)

/-! ## Claim C8 -/

/-- C8: both booking tools address their requests to the default base url
exactly when the SERP_API_BASE_URL option is unset or empty, and to its
value whenever it is set to a nonempty string. -/
theorem serp_base_url_default_and_override
    (query check_in_date check_out_date origin destination outbound_date return_date : String)
    (env : SerpEnv) (http : SerpRequest → HttpResponse) :
    ((env.base_url = none ∨ env.base_url = some "") →
      (booking_hotel query check_in_date check_out_date env http).2.url =
          "https://serpapi.com/search" ∧
      (booking_flight origin destination outbound_date return_date env http).2.map
          SerpRequest.url = ["https://serpapi.com/search", "https://serpapi.com/search"]) ∧
    (∀ s : String, s ≠ "" → env.base_url = some s →
      (booking_hotel query check_in_date check_out_date env http).2.url = s ∧
      (booking_flight origin destination outbound_date return_date env http).2.map
          SerpRequest.url = [s, s]) := by
  constructor
  · rintro (h | h) <;>
      simp [booking_hotel, booking_flight, booking_flight_go_request,
        booking_flight_back_request, orDefault, h]
  · intro s hs h
    simp [booking_hotel, booking_flight, booking_flight_go_request,
      booking_flight_back_request, orDefault, h, hs]

/-- Witness: with the option unset the hotel request goes to the default
url; with the option set to a nonempty value it goes there instead. -/
theorem serp_base_url_default_and_override_witness :
    (booking_hotel "Paris" "2026-02-20" "2026-02-24" ⟨none, none⟩
        (fun _ => ⟨404, Json.null⟩)).2.url = "https://serpapi.com/search" ∧
    (booking_hotel "Paris" "2026-02-20" "2026-02-24" ⟨some "http://localhost:8080", none⟩
        (fun _ => ⟨404, Json.null⟩)).2.url = "http://localhost:8080" :=
  ⟨((serp_base_url_default_and_override "Paris" "2026-02-20" "2026-02-24" "o" "d" "od" "rd"
      ⟨none, none⟩ (fun _ => ⟨404, Json.null⟩)).1 (Or.inl rfl)).1,
   ((serp_base_url_default_and_override "Paris" "2026-02-20" "2026-02-24" "o" "d" "od" "rd"
      ⟨some "http://localhost:8080", none⟩ (fun _ => ⟨404, Json.null⟩)).2
      "http://localhost:8080" (by decide) rfl).1⟩
